import Mathlib

/-!
Verification of the DataPool / DataPoolEntry client core of the
botcity-maestro-sdk (Python).

The Python sources are shallowly embedded: JSON values become an inductive
type, the mutable `DataPoolEntry` dataclass becomes a structure with explicit
state passing (an operation that can raise `ValueError` returns the message
paired with the object state after the call), and HTTP interactions are
modelled by passing the response (status code plus parsed JSON body) as an
explicit argument to the function that consumes it.

Embedded sources:
- botcity/maestro/datapool/entry.py   (DataPoolEntry, the state machine)
- botcity/maestro/datapool/datapool.py (DataPool.next, is_empty, has_next)
- botcity/maestro/sdk.py              (since_version, _define_implementation,
                                       _validate_items)
-/

/-! ## JSON values

Python `json.loads` produces dicts, lists, strings, ints/floats, bools and
`None`.  The claims only ever inspect integer and string scalars, so numbers
are carried as `Int`.  `JObj` models a parsed JSON object (a Python dict with
unique keys); `JValue.null` doubles as Python `None`. -/

mutual

inductive JValue where
  | null
  | bool (b : Bool)
  | num (n : Int)
  | str (s : String)
  | arr (elems : JArr)
  | obj (fields : JObj)
deriving DecidableEq

inductive JArr where
  | nil
  | cons (head : JValue) (tail : JArr)
deriving DecidableEq

inductive JObj where
  | nil
  | cons (key : String) (val : JValue) (tail : JObj)
deriving DecidableEq

end

/-- Python `dict.get(key)`: the value stored at `key`, or `None` when the key
is absent.  Keys of a parsed JSON object are unique, so first-match lookup is
the dict lookup. -/
def JObj.get : JObj → String → JValue
  | .nil, _ => .null
  | .cons k v rest, key => if k = key then v else JObj.get rest key

/-- Python `dict.get(key, default)`. -/
def JObj.getD : JObj → String → JValue → JValue
  | .nil, _, d => d
  | .cons k v rest, key, d => if k = key then v else JObj.getD rest key d

/-- Key presence: `some v` when `key` maps to `v`, `none` when absent. -/
def JObj.find : JObj → String → Option JValue
  | .nil, _ => none
  | .cons k v rest, key => if k = key then some v else JObj.find rest key

/-- Python `str()` on the scalar values the SDK interpolates into messages
(state names from JSON, task ids).  The SDK never formats a composite value
in the embedded message paths, so the `arr`/`obj` renderings are
placeholders that no theorem below depends on. -/
def pyStr : JValue → String
  | .null => "None"
  | .bool b => cond b "True" "False"
  | .num n => toString n
  | .str s => s
  | .arr _ => "[...]"
  | .obj _ => "\x7b...\x7d"

/-! ## DataPoolEntry (botcity/maestro/datapool/entry.py)

The dataclass fields, with their dataclass defaults.  Python is dynamically
typed and `update_from_json` stores whatever the JSON payload held, so every
field is a `JValue` (`null` modelling `None`).  The `maestro` back-reference
(a non-owning session pointer, never serialized) is not part of the model. -/

structure DataPoolEntry where
  priority : JValue := .num 0
  values : JValue := .obj .nil
  datapool_label : JValue := .null
  state : JValue := .null
  entry_id : JValue := .null
  task_id : JValue := .null
  parent : JValue := .null
  child : JValue := .null
  date_register : JValue := .null
  date_processing : JValue := .null
  date_finished : JValue := .null
deriving DecidableEq

/-- A fresh `DataPoolEntry()` with all dataclass defaults. -/
def defaultEntry : DataPoolEntry := {}

/-- Python `value == StateEnum.NAME` where `StateEnum` is a `str` enum: true
exactly when `value` is the string `name` (no non-string value compares equal
to a `str` enum member). -/
def stateEq (v : JValue) (name : String) : Bool :=
  match v with
  | .str s => s == name
  | _ => false

/-- Python `value in states` for a list of `StateEnum` members: membership by
`==` against each member. -/
def stateMem (v : JValue) (names : List String) : Bool :=
  names.any (fun n => stateEq v n)

/-- The `ValueError` message built by `_verify_state`:
`f"In state {state}, only change to states {','.join(states)} is allowed."`
Note the Python code interpolates `state`, the NEW value being assigned, not
`self.state`. -/
def transitionMsg (newState : JValue) (states : List String) : String :=
  "In state " ++ pyStr newState ++ ", only change to states " ++
    String.intercalate "," states ++ " is allowed."

/-- `DataPoolEntry._verify_state(state)` from entry.py: `cur` is
`self.state`, `new` the value being assigned.  `None` current state skips the
check.  The Python body is three consecutive `if` blocks keyed on
`self.state`; at most one of them can match a given current state, so they
are rendered as an if/else chain.  States `DONE` and `ERROR` have no guard in
the source: any assignment from them passes unchecked. -/
def verify_state (cur new : JValue) : Except String Unit :=
  if cur = JValue.null then .ok ()
  else if stateEq cur "PENDING" then
    if stateMem new ["PROCESSING"] then .ok ()
    else .error (transitionMsg new ["PROCESSING"])
  else if stateEq cur "PROCESSING" then
    if stateMem new ["TIMEOUT", "DONE", "ERROR"] then .ok ()
    else .error (transitionMsg new ["TIMEOUT", "DONE", "ERROR"])
  else if stateEq cur "TIMEOUT" then
    if stateMem new ["DONE", "ERROR"] then .ok ()
    else .error (transitionMsg new ["DONE", "ERROR"])
  else .ok ()

/-- `DataPoolEntry.__setattr__` for key `state`: `_verify_state` runs before
the dict write, so on a raise the object is returned unchanged together with
the `ValueError` message; on success the field is written. -/
def setStateResult (e : DataPoolEntry) (v : JValue) :
    Option String × DataPoolEntry :=
  match verify_state e.state v with
  | .error m => (some m, e)
  | .ok _ => (none, { e with state := v })

/-- `DataPoolEntry.update_from_json(payload)`: assigns, in source order,
`entry_id`, `datapool_label`, then `state` (through `__setattr__`, which can
raise, leaving the earlier two assignments in place), then the remaining
fields.  Returns the raised message (if any) with the object state after the
call. -/
def update_from_json (e : DataPoolEntry) (payload : JObj) :
    Option String × DataPoolEntry :=
  let e1 := { e with
    entry_id := payload.get "id"
    datapool_label := payload.get "dataPoolLabel" }
  match verify_state e1.state (payload.get "state") with
  | .error m => (some m, e1)
  | .ok _ =>
    (none, { e1 with
      state := payload.get "state"
      values := payload.get "values"
      task_id := payload.get "taskId"
      priority := payload.get "priority"
      parent := payload.get "parent"
      child := payload.get "child"
      date_register := payload.get "dateRegister"
      date_processing := payload.get "dateProcessing"
      date_finished := payload.get "dateFinished" })

/-- `DataPoolEntry.json_to_update()`: the update payload, as the JSON object
it serializes (json.dumps itself is not modelled; the object is). -/
def json_to_update (e : DataPoolEntry) : JObj :=
  .cons "priority" e.priority
    (.cons "values" e.values
      (.cons "dataPoolLabel" e.datapool_label
        (.cons "state" e.state
          (.cons "taskId" e.task_id
            (.cons "parent" e.parent
              (.cons "child" e.child .nil))))))

/-! ## HTTP responses and the operations that consume them

The `requests` transport is an external collaborator.  An operation that
performs one HTTP round trip is embedded as a function of the response: the
numeric status code and the parsed JSON body.  `requests.Response.ok` is
`status_code < 400`; `raise_for_status()` raises exactly for 4xx/5xx. -/

structure HttpResponse where
  status : Nat
  body : JObj
deriving DecidableEq

instance {ε α : Type} [DecidableEq ε] [DecidableEq α] :
    DecidableEq (Except ε α) := fun x y =>
  match x, y with
  | .error a, .error b =>
    if h : a = b then isTrue (by rw [h])
    else isFalse (fun hc => h (by injection hc))
  | .error _, .ok _ => isFalse (fun hc => Except.noConfusion hc)
  | .ok _, .error _ => isFalse (fun hc => Except.noConfusion hc)
  | .ok a, .ok b =>
    if h : a = b then isTrue (by rw [h])
    else isFalse (fun hc => h (by injection hc))

/-- `requests.Response.ok`. -/
def reqOk (status : Nat) : Bool := decide (status < 400)

/-- Errors an embedded pool operation can surface: an HTTP error from
`raise_for_status()` (carrying the status), or a Python `ValueError`
(carrying the message). -/
inductive PoolError where
  | http (status : Nat)
  | validation (msg : String)
deriving DecidableEq

/-- `DataPoolEntry.save()` given the POST response: on `req.ok` the source
calls `update_from_json` twice (lines 135-136 of entry.py), each call going
through the `state` setter; a non-ok response raises for status. -/
def entrySave (e : DataPoolEntry) (resp : HttpResponse) :
    Option PoolError × DataPoolEntry :=
  if reqOk resp.status then
    match update_from_json e resp.body with
    | (some m, e1) => (some (.validation m), e1)
    | (none, e1) =>
      match update_from_json e1 resp.body with
      | (some m, e2) => (some (.validation m), e2)
      | (none, e2) => (none, e2)
  else (some (.http resp.status), e)

/-- `DataPoolEntry._report(state)`: assign the state (transition check), then
`save()` against the server response. -/
def entryReport (e : DataPoolEntry) (state : JValue) (resp : HttpResponse) :
    Option PoolError × DataPoolEntry :=
  match setStateResult e state with
  | (some m, e1) => (some (.validation m), e1)
  | (none, e1) => entrySave e1 resp

/-- `DataPoolEntry.report_done()`: `_report(StateEnum.DONE)`. -/
def report_done (e : DataPoolEntry) (resp : HttpResponse) :
    Option PoolError × DataPoolEntry :=
  entryReport e (.str "DONE") resp

/-- `DataPoolEntry.report_error()`: `_report(StateEnum.ERROR)`. -/
def report_error (e : DataPoolEntry) (resp : HttpResponse) :
    Option PoolError × DataPoolEntry :=
  entryReport e (.str "ERROR") resp

/-! ## DataPool (botcity/maestro/datapool/datapool.py) -/

/-- `DataPool.next(task_id)` given the pull response.  Status 204 returns
`None` (no entry); an ok status hydrates a fresh `DataPoolEntry()` from the
body and then stamps `str(task_id)` onto it; any other status raises for
status.  The `entry.maestro` back-reference assignment is not modelled. -/
def datapoolNext (task_id : JValue) (resp : HttpResponse) :
    Except PoolError (Option DataPoolEntry) :=
  if resp.status = 204 then .ok none
  else if reqOk resp.status then
    match update_from_json defaultEntry resp.body with
    | (some m, _) => .error (.validation m)
    | (none, e) => .ok (some { e with task_id := .str (pyStr task_id) })
  else .error (.http resp.status)

/-- `DataPool.is_empty()` given the summary response body:
`summary.get("countPending", 0) == 0`. -/
def is_empty (summary : JObj) : Bool :=
  if summary.getD "countPending" (.num 0) = JValue.num 0 then true else false

/-- `DataPool.has_next()`: `not self.is_empty()`, evaluated on the summary
response fetched at that moment. -/
def has_next (summary : JObj) : Bool :=
  !is_empty summary

/-! ## Version negotiation and gating (botcity/maestro/sdk.py)

`packaging.version.parse` applied to the dotted numeric `major.minor.patch`
strings this SDK deals in ("2.0.0", "3.0.2", "999.0.0" and the portal's
probed version) orders them lexicographically on the numeric triple; the
model restricts the parser to that domain. -/

structure SemVer where
  major : Nat
  minor : Nat
  patch : Nat
deriving DecidableEq

/-- Split a character list on the dot character. -/
def splitDots : List Char → List (List Char)
  | [] => [[]]
  | c :: rest =>
    match splitDots rest with
    | [] => [[c]]
    | cur :: parts =>
      if c = Char.ofNat 46 then [] :: cur :: parts else (c :: cur) :: parts

/-- Parse a non-empty all-digit character run as a natural number. -/
def parseNatChars (cs : List Char) : Option Nat :=
  if cs = [] then none
  else
    cs.foldl
      (fun acc c =>
        match acc with
        | none => none
        | some n => if c.isDigit then some (n * 10 + (c.toNat - 48)) else none)
      (some 0)

/-- Parse a dotted numeric `X.Y.Z` version string. -/
def parseVersion (s : String) : Option SemVer :=
  match (splitDots s.toList).map parseNatChars with
  | [some a, some b, some c] => some ⟨a, b, c⟩
  | _ => none

/-- Strict semantic-version ordering on parsed triples. -/
def semVerLt (a b : SemVer) : Bool :=
  if a.major ≠ b.major then decide (a.major < b.major)
  else if a.minor ≠ b.minor then decide (a.minor < b.minor)
  else decide (a.patch < b.patch)

/-- `version.parse(a) < version.parse(b)` on well-formed `X.Y.Z` strings. -/
def versionLtStr (a b : String) : Bool :=
  match parseVersion a, parseVersion b with
  | some x, some y => semVerLt x y
  | _, _ => false

/-- Outcome of calling a method wrapped by the `since_version` decorator. -/
inductive GatedCall (α : Type) where
  | raisedNotConnected
  | raisedVersionUnsupported (methodName negotiated required : String)
  | invoked (result : α)
deriving DecidableEq

/-- The `since_version(v)` decorator of sdk.py: with no negotiated version,
raise the not-connected `RuntimeError` when `RAISE_NOT_CONNECTED` is set,
else call through ungated; with a negotiated version lower than the
requirement, raise the version-unsupported `RuntimeError` (its message names
the method, the negotiated version and the required version, carried here on
the constructor) without invoking the wrapped function; otherwise call
through. -/
def since_version (required methodName : String) (negotiated : Option String)
    (raiseNotConnected : Bool) (func : Unit → α) : GatedCall α :=
  match negotiated with
  | none =>
    if raiseNotConnected then .raisedNotConnected else .invoked (func ())
  | some ver =>
    if versionLtStr ver required then
      .raisedVersionUnsupported methodName ver required
    else .invoked (func ())

/-- `BotMaestroSDK._define_implementation()`: the probe either yields a
version string (HTTP success with a parseable `version` field) or fails
(`none` covers network errors, non-success statuses and malformed bodies
alike, all caught by the bare `except`).  On failure the exception is
re-raised when `RAISE_NOT_CONNECTED` is set; otherwise the recorded version
becomes the fixed string "999.0.0". -/
def define_implementation (probe : Option String) (raiseNotConnected : Bool) :
    Except Unit String :=
  match probe with
  | some v => .ok v
  | none => if raiseNotConnected then .error () else .ok "999.0.0"

/-! ## finish_task item reconciliation (BotMaestroSDK._validate_items) -/

/-- `BotMaestroSDK._validate_items(total_items, processed_items,
failed_items)`: the chained comparison on the first line is true exactly when
all three are `None` (a warning, not an error, is emitted there); then the
three fill-the-blank branches run in source order on the rebound names; a
still-missing value raises; negatives are clamped to zero; a clamped sum
mismatch raises. -/
def validate_items (total_items processed_items failed_items : Option Int) :
    Except String (Option Int × Option Int × Option Int) :=
  if total_items = none ∧ processed_items = none ∧ failed_items = none then
    .ok (none, none, none)
  else
    let t1 : Option Int :=
      match total_items, processed_items, failed_items with
      | none, some p, some f => some (p + f)
      | t, _, _ => t
    let f1 : Option Int :=
      match t1, processed_items, failed_items with
      | some t, some p, none => some (t - p)
      | _, _, f => f
    let p1 : Option Int :=
      match t1, processed_items, f1 with
      | some t, none, some f => some (t - f)
      | _, p, _ => p
    match t1, p1, f1 with
    | some t, some p, some f =>
      let t2 := max 0 t
      let p2 := max 0 p
      let f2 := max 0 f
      if t2 ≠ p2 + f2 then
        .error "Total items is not equal to the sum of processed and failed items."
      else .ok (some t2, some p2, some f2)
    | _, _, _ =>
      .error "You must inform at least two of the following parameters: total_items, processed_items, failed_items."

/-! ## Substring helper (used to examine error-message content) -/

/-- Whether `needle` occurs as a contiguous run inside `hay`. -/
def hasSeq (needle : List Char) : List Char → Bool
  | [] => needle.isEmpty
  | c :: rest => needle.isPrefixOf (c :: rest) || hasSeq needle rest

/-- Whether string `needle` occurs inside string `hay`. -/
def strContains (hay needle : String) : Bool :=
  hasSeq needle.toList hay.toList

/-! ## Helper lemmas -/

/-- Lookup with a default agrees with plain lookup on present keys. -/
theorem JObj.getD_eq_of_find : ∀ (s : JObj) (k : String) (v d : JValue),
    s.find k = some v → s.getD k d = v
  | .nil, k, v, d, h => by simp [JObj.find] at h
  | .cons key val rest, k, v, d, h => by
    by_cases hk : key = k
    · simp [JObj.find, hk] at h
      simp [JObj.getD, hk, h]
    · simp [JObj.find, hk] at h
      simpa [JObj.getD, hk] using JObj.getD_eq_of_find rest k v d h

/-- Hydrating a fresh `DataPoolEntry()` never trips the transition check
(the dataclass default state is `None`, which `_verify_state` skips), and
every field ends up as the corresponding `dict.get` of the payload. -/
theorem fresh_entry_update_ok (p : JObj) :
    update_from_json defaultEntry p
      = (none,
         { entry_id := p.get "id", datapool_label := p.get "dataPoolLabel",
           state := p.get "state", values := p.get "values",
           task_id := p.get "taskId", priority := p.get "priority",
           parent := p.get "parent", child := p.get "child",
           date_register := p.get "dateRegister",
           date_processing := p.get "dateProcessing",
           date_finished := p.get "dateFinished" }) := by
  simp [update_from_json, verify_state, defaultEntry]

/-! ## Claim theorems -/

/-- C2: for a `DataPoolEntry` whose current state is PENDING, PROCESSING or
TIMEOUT, assigning a state outside the allowed successor set
(PENDING to PROCESSING only; PROCESSING to TIMEOUT, DONE or ERROR;
TIMEOUT to DONE or ERROR) raises a `ValueError` and leaves the in-memory
state unchanged (the returned object is the untouched entry); when the
current state is unset (`None`), any assignment succeeds with no check
performed. -/
theorem transition_table_enforced (e : DataPoolEntry) (v : JValue) :
    (e.state = JValue.null → setStateResult e v = (none, { e with state := v })) ∧
    (stateEq e.state "PENDING" = true → stateMem v ["PROCESSING"] = false →
      setStateResult e v = (some (transitionMsg v ["PROCESSING"]), e)) ∧
    (stateEq e.state "PROCESSING" = true →
      stateMem v ["TIMEOUT", "DONE", "ERROR"] = false →
      setStateResult e v
        = (some (transitionMsg v ["TIMEOUT", "DONE", "ERROR"]), e)) ∧
    (stateEq e.state "TIMEOUT" = true → stateMem v ["DONE", "ERROR"] = false →
      setStateResult e v = (some (transitionMsg v ["DONE", "ERROR"]), e)) := by
  refine ⟨fun h => ?_, fun h1 h2 => ?_, fun h1 h2 => ?_, fun h1 h2 => ?_⟩
  · simp [setStateResult, verify_state, h]
  all_goals {
    have hnn : ¬ e.state = JValue.null := by
      intro hn
      rw [hn] at h1
      simp [stateEq] at h1
    have hds : ∀ n : String, stateEq e.state n = (e.state = JValue.str n) := by
      intro n
      cases e.state <;> simp [stateEq]
    rw [hds] at h1
    simp [setStateResult, verify_state, hnn, h1, h2, stateEq]
  }

/-- Witness for C2 at concrete inputs: a PENDING entry rejects DONE
unchanged, and an unset entry accepts PROCESSING. -/
theorem transition_table_enforced_witness :
    setStateResult { state := JValue.str "PENDING" } (JValue.str "DONE")
      = (some (transitionMsg (JValue.str "DONE") ["PROCESSING"]),
         { state := JValue.str "PENDING" }) ∧
    setStateResult { state := JValue.null } (JValue.str "PROCESSING")
      = (none, { state := JValue.str "PROCESSING" }) :=
  ⟨(transition_table_enforced { state := JValue.str "PENDING" }
      (JValue.str "DONE")).2.1 (by decide) (by decide),
   (transition_table_enforced { state := JValue.null }
      (JValue.str "PROCESSING")).1 rfl⟩

/-- C1 counterexample: the claim says that from the terminal state DONE any
assignment raises and the state is left unchanged; on the code, an entry in
state DONE accepts the assignment of PENDING with no error and its state is
overwritten (`_verify_state` has no guard for DONE or ERROR). -/
theorem done_terminal_cex :
    setStateResult { state := JValue.str "DONE" } (JValue.str "PENDING")
      = (none, { state := JValue.str "PENDING" }) := by decide

/-- C1 amended: for a `DataPoolEntry` whose current state is DONE or ERROR,
`_verify_state` performs no check at all: every assignment succeeds and the
state is overwritten; in particular a second `report_done()` on a DONE entry
passes the transition check and proceeds straight to `save()` (DONE and ERROR
are not enforced as terminal by the client). -/
theorem done_error_states_unchecked (e : DataPoolEntry) (v : JValue)
    (h : stateEq e.state "DONE" = true ∨ stateEq e.state "ERROR" = true) :
    setStateResult e v = (none, { e with state := v }) ∧
    ∀ resp : HttpResponse,
      report_done e resp = entrySave { e with state := JValue.str "DONE" } resp := by
  have hset : ∀ w : JValue, setStateResult e w = (none, { e with state := w }) := by
    intro w
    rcases h with h | h <;>
      · rcases hs : e.state with _ | _ | _ | s | _ | _ <;> rw [hs] at h <;>
          simp [stateEq] at h
        simp [setStateResult, verify_state, hs, h, stateEq]
  refine ⟨hset v, fun resp => ?_⟩
  simp [report_done, entryReport, hset (JValue.str "DONE")]

/-- Witness for C1 amended: a concrete ERROR entry accepts PENDING. -/
theorem done_error_states_unchecked_witness :
    setStateResult { state := JValue.str "ERROR" } (JValue.str "PENDING")
      = (none, { state := JValue.str "PENDING" }) :=
  (done_error_states_unchecked { state := JValue.str "ERROR" }
    (JValue.str "PENDING") (Or.inr (by decide))).1

/-- C9: the `ValueError` raised on an illegal transition.  At the failing
input (current state PENDING, attempted new state DONE) the message is
exactly "In state DONE, only change to states PROCESSING is allowed.": it
names the allowed successor set of the current state, but the state it names
is the attempted NEW state (DONE), and the current state (PENDING) appears
nowhere in it — the f-string in `_verify_state` interpolates its `state`
parameter where the message text calls for `self.state`. -/
theorem transition_error_names_new_state :
    setStateResult { state := JValue.str "PENDING" } (JValue.str "DONE")
      = (some "In state DONE, only change to states PROCESSING is allowed.",
         { state := JValue.str "PENDING" }) ∧
    strContains "In state DONE, only change to states PROCESSING is allowed."
      "PROCESSING" = true ∧
    strContains "In state DONE, only change to states PROCESSING is allowed."
      "DONE" = true ∧
    strContains "In state DONE, only change to states PROCESSING is allowed."
      "PENDING" = false := by decide

/-- C10: the allowed-successor sets of PENDING, PROCESSING and TIMEOUT never
contain the current state, so re-assigning the same state raises a
`ValueError` and leaves the entry untouched, while DONE to DONE passes
unchecked; consequently `update_from_json` on an entry already PROCESSING,
fed a payload whose `state` is also PROCESSING, raises, and `save()` on a
PROCESSING entry raises even on a server-accepted (ok) response whose body
still reports PROCESSING. -/
theorem self_transition_semantics (e : DataPoolEntry) (s : String) :
    ((s = "PENDING" ∨ s = "PROCESSING" ∨ s = "TIMEOUT") →
      e.state = JValue.str s →
      (setStateResult e (JValue.str s)).1.isSome = true ∧
      (setStateResult e (JValue.str s)).2 = e) ∧
    (e.state = JValue.str "DONE" →
      setStateResult e (JValue.str "DONE")
        = (none, { e with state := JValue.str "DONE" })) ∧
    (∀ p : JObj, e.state = JValue.str "PROCESSING" →
      p.get "state" = JValue.str "PROCESSING" →
      (update_from_json e p).1
        = some (transitionMsg (JValue.str "PROCESSING")
            ["TIMEOUT", "DONE", "ERROR"])) ∧
    (∀ resp : HttpResponse, e.state = JValue.str "PROCESSING" →
      reqOk resp.status = true →
      resp.body.get "state" = JValue.str "PROCESSING" →
      (entrySave e resp).1
        = some (.validation (transitionMsg (JValue.str "PROCESSING")
            ["TIMEOUT", "DONE", "ERROR"]))) := by
  refine ⟨fun hs he => ?_, fun he => ?_, fun p he hp => ?_, fun resp he hok hb => ?_⟩
  · rcases hs with hs | hs | hs <;> subst hs <;>
      simp [setStateResult, verify_state, he, stateEq, stateMem]
  · simp [setStateResult, verify_state, he, stateEq]
  · simp [update_from_json, verify_state, he, hp, stateEq, stateMem]
  · simp [entrySave, hok, update_from_json, verify_state, he, hb, stateEq, stateMem]

/-- Witness for C10 at concrete inputs: PROCESSING to PROCESSING is rejected
unchanged, and a `save()` against an ok response echoing PROCESSING raises. -/
theorem self_transition_semantics_witness :
    ((setStateResult { state := JValue.str "PROCESSING" }
        (JValue.str "PROCESSING")).1.isSome = true ∧
     (setStateResult { state := JValue.str "PROCESSING" }
        (JValue.str "PROCESSING")).2
        = { state := JValue.str "PROCESSING" }) ∧
    (entrySave { state := JValue.str "PROCESSING" }
        ⟨200, JObj.cons "state" (JValue.str "PROCESSING") JObj.nil⟩).1
      = some (.validation (transitionMsg (JValue.str "PROCESSING")
          ["TIMEOUT", "DONE", "ERROR"])) :=
  ⟨(self_transition_semantics { state := JValue.str "PROCESSING" }
      "PROCESSING").1 (Or.inr (Or.inl rfl)) rfl,
   (self_transition_semantics { state := JValue.str "PROCESSING" }
      "PROCESSING").2.2.2
      ⟨200, JObj.cons "state" (JValue.str "PROCESSING") JObj.nil⟩
      rfl (by decide) (by decide)⟩

/-- C3: `DataPool.next(task_id)` returns no entry (`none`), not an error,
when the pull endpoint answers HTTP 204; on any other ok status it returns a
`DataPoolEntry` hydrated entirely from the response body with `str(task_id)`
stamped onto it; any non-ok status raises for status and no entry is
returned. -/
theorem next_claim_protocol (t : JValue) (resp : HttpResponse) :
    (resp.status = 204 → datapoolNext t resp = .ok none) ∧
    (resp.status ≠ 204 → reqOk resp.status = true →
      datapoolNext t resp
        = .ok (some { (update_from_json defaultEntry resp.body).2 with
                      task_id := JValue.str (pyStr t) })) ∧
    (resp.status ≠ 204 → reqOk resp.status = false →
      datapoolNext t resp = .error (.http resp.status)) := by
  refine ⟨fun h => ?_, fun h1 h2 => ?_, fun h1 h2 => ?_⟩
  · simp [datapoolNext, h]
  · simp [datapoolNext, h1, h2, fresh_entry_update_ok]
  · simp [datapoolNext, h1, h2]

/-- Witness for C3 at concrete responses: 204 yields no entry, an ok 200
response yields the hydrated entry with the stringified task id, and a 500
raises for status. -/
theorem next_claim_protocol_witness :
    datapoolNext (JValue.num 42) ⟨204, JObj.nil⟩ = .ok none ∧
    datapoolNext (JValue.num 42)
        ⟨200, JObj.cons "state" (JValue.str "PROCESSING")
                (JObj.cons "id" (JValue.str "abc") JObj.nil)⟩
      = .ok (some { (update_from_json defaultEntry
                      (JObj.cons "state" (JValue.str "PROCESSING")
                        (JObj.cons "id" (JValue.str "abc") JObj.nil))).2 with
                    task_id := JValue.str (pyStr (JValue.num 42)) }) ∧
    datapoolNext (JValue.num 42) ⟨500, JObj.nil⟩ = .error (.http 500) :=
  ⟨(next_claim_protocol (JValue.num 42) ⟨204, JObj.nil⟩).1 rfl,
   (next_claim_protocol (JValue.num 42)
      ⟨200, JObj.cons "state" (JValue.str "PROCESSING")
        (JObj.cons "id" (JValue.str "abc") JObj.nil)⟩).2.1
      (by decide) (by decide),
   (next_claim_protocol (JValue.num 42) ⟨500, JObj.nil⟩).2.2
      (by decide) (by decide)⟩

/-- C6: hydrating a fresh `DataPoolEntry` from a server JSON payload via
`update_from_json` (which raises nothing on a fresh entry) and immediately
re-deriving its update payload via `json_to_update` preserves priority,
values, pool label, state, task id, parent and child exactly. -/
theorem entry_round_trip (p : JObj) :
    (update_from_json defaultEntry p).1 = none ∧
    (json_to_update (update_from_json defaultEntry p).2).get "priority"
      = p.get "priority" ∧
    (json_to_update (update_from_json defaultEntry p).2).get "values"
      = p.get "values" ∧
    (json_to_update (update_from_json defaultEntry p).2).get "dataPoolLabel"
      = p.get "dataPoolLabel" ∧
    (json_to_update (update_from_json defaultEntry p).2).get "state"
      = p.get "state" ∧
    (json_to_update (update_from_json defaultEntry p).2).get "taskId"
      = p.get "taskId" ∧
    (json_to_update (update_from_json defaultEntry p).2).get "parent"
      = p.get "parent" ∧
    (json_to_update (update_from_json defaultEntry p).2).get "child"
      = p.get "child" := by
  simp [fresh_entry_update_ok, json_to_update, JObj.get]

/-- C7: given the summary response body, `is_empty()` is true exactly when
its `countPending` field equals 0, and `has_next()` is the logical negation
of `is_empty()` on that summary. -/
theorem is_empty_iff_countPending_zero (s : JObj) (v : JValue)
    (h : s.find "countPending" = some v) :
    (is_empty s = true ↔ v = JValue.num 0) ∧ has_next s = !is_empty s := by
  refine ⟨?_, rfl⟩
  rw [is_empty, JObj.getD_eq_of_find s "countPending" v (.num 0) h]
  by_cases hv : v = JValue.num 0 <;> simp [hv]

/-- Witness for C7 at a concrete summary whose `countPending` is 3. -/
theorem is_empty_iff_countPending_zero_witness :
    (is_empty (JObj.cons "countPending" (JValue.num 3) JObj.nil) = true
      ↔ JValue.num 3 = JValue.num 0) ∧
    has_next (JObj.cons "countPending" (JValue.num 3) JObj.nil)
      = !is_empty (JObj.cons "countPending" (JValue.num 3) JObj.nil) :=
  is_empty_iff_countPending_zero
    (JObj.cons "countPending" (JValue.num 3) JObj.nil) (JValue.num 3) rfl

/-- C4: a call through the `since_version` decorator with a negotiated
version that parses below the requirement under semantic-version ordering
raises a version-unsupported error carrying the method name, the negotiated
version and the required version, and never invokes the wrapped function
(no network call); an equal-or-higher negotiated version calls through; with
no negotiated version the call raises a distinct not-connected error when
`RAISE_NOT_CONNECTED` is set and calls through ungated otherwise. -/
theorem since_version_gate {α : Type} (req meth negv : String) (a b : SemVer)
    (rnc : Bool) (func : Unit → α) :
    (parseVersion negv = some a → parseVersion req = some b →
      (semVerLt a b = true →
        since_version req meth (some negv) rnc func
          = .raisedVersionUnsupported meth negv req) ∧
      (semVerLt a b = false →
        since_version req meth (some negv) rnc func = .invoked (func ()))) ∧
    since_version req meth none true func = .raisedNotConnected ∧
    since_version req meth none false func = .invoked (func ()) := by
  refine ⟨fun hn hr => ⟨fun hlt => ?_, fun hge => ?_⟩, rfl, rfl⟩
  · simp [since_version, versionLtStr, hn, hr, hlt]
  · simp [since_version, versionLtStr, hn, hr, hge]

/-- Witness for C4 at concrete versions: negotiated 1.5.3 against a 2.0.0
requirement raises version-unsupported; negotiated 2.0.0 calls through. -/
theorem since_version_gate_witness :
    since_version "2.0.0" "interrupt_task" (some "1.5.3") true
        (fun _ => (0 : Nat))
      = .raisedVersionUnsupported "interrupt_task" "1.5.3" "2.0.0" ∧
    since_version "2.0.0" "interrupt_task" (some "2.0.0") true
        (fun _ => (0 : Nat))
      = .invoked 0 :=
  ⟨((since_version_gate "2.0.0" "interrupt_task" "1.5.3" ⟨1, 5, 3⟩ ⟨2, 0, 0⟩
      true (fun _ => 0)).1 (by decide) (by decide)).1 (by decide),
   ((since_version_gate "2.0.0" "interrupt_task" "2.0.0" ⟨2, 0, 0⟩ ⟨2, 0, 0⟩
      true (fun _ => 0)).1 (by decide) (by decide)).2 (by decide)⟩

/-- C5 counterexample: the claim says that when the probe fails and the
failure is suppressed, the recorded fallback represents "oldest known" so
that a call gated at 2.0.0 fails version-unsupported; on the code the
recorded fallback is the fixed string "999.0.0" and a method gated at
2.0.0 (such as `interrupt_task`) is invoked with no error. -/
theorem probe_failure_fallback_cex :
    define_implementation none false = .ok "999.0.0" ∧
    since_version "2.0.0" "interrupt_task" (some "999.0.0") false
        (fun _ => (0 : Nat))
      = .invoked 0 := by decide

/-- C5 amended: when the version probe fails and `RAISE_NOT_CONNECTED` is
unset, `_define_implementation` records the fixed fallback token "999.0.0"
(an assume-latest sentinel, not an oldest-known one; no legacy variant is
selected — sdk.py has a single implementation), so a subsequently invoked
operation gated at 2.0.0, or at any requirement not above 999.0.0, proceeds
without a version error. -/
theorem probe_failure_fallback_assume_latest {α : Type} (func : Unit → α)
    (meth req : String) (b : SemVer) (hreq : parseVersion req = some b)
    (hle : semVerLt ⟨999, 0, 0⟩ b = false) :
    define_implementation none false = .ok "999.0.0" ∧
    since_version req meth (some "999.0.0") false func = .invoked (func ()) := by
  refine ⟨rfl, ?_⟩
  have h999 : parseVersion "999.0.0" = some ⟨999, 0, 0⟩ := by decide
  simp [since_version, versionLtStr, h999, hreq, hle]

/-- Witness for C5 amended at the 2.0.0 gate of `interrupt_task`. -/
theorem probe_failure_fallback_assume_latest_witness :
    define_implementation none false = .ok "999.0.0" ∧
    since_version "2.0.0" "interrupt_task" (some "999.0.0") false
        (fun _ => (1 : Nat))
      = .invoked 1 :=
  probe_failure_fallback_assume_latest (fun _ => (1 : Nat)) "interrupt_task"
    "2.0.0" ⟨2, 0, 0⟩ (by decide) (by decide)

/-- C8 counterexample: the claim says a validation error is raised whenever
two or more of the three item counts are missing; with all three missing,
`_validate_items` raises nothing — it emits a warning and returns the three
`None` values unchanged. -/
theorem validate_items_all_none_cex :
    validate_items none none none = .ok (none, none, none) := by decide

/-- C8 amended: when exactly one of the three counts is missing it is filled
from the other two (total as processed plus failed, failed as total minus
processed, processed as total minus failed — each equivalent to the call
with the blank filled in); when exactly two are missing a validation error
is raised; when all three are missing the call returns the three `None`
values with only a warning; with all three present, each is clamped to zero
from below and a validation error is raised when the clamped total differs
from the clamped processed plus failed, else the clamped triple is
returned. -/
theorem validate_items_semantics (t p f : Int) :
    validate_items none (some p) (some f)
      = validate_items (some (p + f)) (some p) (some f) ∧
    validate_items (some t) (some p) none
      = validate_items (some t) (some p) (some (t - p)) ∧
    validate_items (some t) none (some f)
      = validate_items (some t) (some (t - f)) (some f) ∧
    validate_items (some t) none none
      = .error "You must inform at least two of the following parameters: total_items, processed_items, failed_items." ∧
    validate_items none (some p) none
      = .error "You must inform at least two of the following parameters: total_items, processed_items, failed_items." ∧
    validate_items none none (some f)
      = .error "You must inform at least two of the following parameters: total_items, processed_items, failed_items." ∧
    validate_items none none none = .ok (none, none, none) ∧
    validate_items (some t) (some p) (some f)
      = (if max 0 t ≠ max 0 p + max 0 f then
          .error "Total items is not equal to the sum of processed and failed items."
         else .ok (some (max 0 t), some (max 0 p), some (max 0 f))) := by
  refine ⟨?_, ?_, ?_, ?_, ?_, ?_, ?_, ?_⟩ <;> simp [validate_items]
